import Mathlib

/-!
Shallow embedding of the cert-manager ACME webhook solver for the bunny.net
DNS provider.  The definitions follow src/unnamed/part_000 (the current
revision of the solver; src/main.go is an earlier revision of the same file).
Network effects are modelled by an environment fixing the outcome of each
HTTP call, and the HTTP calls a run issues are collected in a trace.
-/

set_option autoImplicit false

/-- Record type constant for TXT records (const recordType = 3). -/
def recordType : Int := 3

/-- TTL used for every created record (const recordTTL = 10). -/
def recordTTL : Int := 10

/-- Panic message used when the API key is missing (const errMissingAPIKey). -/
def errMissingAPIKey : String := "API_KEY must be specified"

/-- Outcome of a Go function call in this embedding: a returned value, a
returned non-nil error, or a runtime panic. -/
inductive GoResult (α : Type) where
  | ok (a : α)
  | err (msg : String)
  | panicked (msg : String)
  deriving DecidableEq

/-- DNS record as marshalled to and decoded from the provider API: the six
fields of the Record struct, each tagged with json omitempty in the source. -/
structure Record where
  ID : Int
  «Type» : Int
  Ttl : Int
  Value : String
  Name : String
  Disabled : Bool
  deriving DecidableEq

/-- One element of the Items array of a zone search response (struct Item:
the three fields the solver reads). -/
structure Item where
  ID : Int
  Domain : String
  Records : List Record
  deriving DecidableEq

/-- Decoded body of GET /dnszone (struct ZoneResponse). -/
structure ZoneResponse where
  Items : List Item
  CurrentPage : Int
  TotalItems : Int
  HasMoreItems : Bool
  deriving DecidableEq

/-- The fields of a v1alpha1.ChallengeRequest that the solver reads. -/
structure ChallengeRequest where
  ResolvedFQDN : String
  ResolvedZone : String
  Key : String
  deriving DecidableEq

/-- An HTTP call issued to the provider API, as recorded in the trace:
the GET zone search with its search parameter, the PUT creating a record
with its JSON body, or the DELETE of a record. -/
inductive ApiCall where
  | searchZone (searchTerm : String)
  | createRecord (zoneID : Int) (body : Record)
  | deleteRecord (zoneID : Int) (recordID : Int)
  deriving DecidableEq

/-- Is this call a DELETE? -/
def ApiCall.isDelete : ApiCall → Bool
  | .deleteRecord _ _ => true
  | _ => false

/-- Is this call mutating (record create or delete, as opposed to the read
only zone search)? -/
def ApiCall.isMutating : ApiCall → Bool
  | .searchZone _ => false
  | _ => true

/-- Environment-chosen outcome of the zone-search GET issued by GetZone:
each fallible step of that call can fail, or the decoded response arrives. -/
inductive ZoneFetchOutcome where
  | createRequestError (e : String)
  | transportError (e : String)
  | readError (e : String)
  | decodeError (e : String)
  | ok (data : ZoneResponse)
  deriving DecidableEq

/-- True unless building the HTTP request itself failed (in which case no
call ever reaches the network). -/
def ZoneFetchOutcome.requestBuilt : ZoneFetchOutcome → Bool
  | .createRequestError _ => false
  | _ => true

/-- Environment-chosen outcome of the record-creation PUT issued by Present. -/
inductive CreateOutcome where
  | createRequestError (e : String)
  | transportError (e : String)
  | readError (e : String)
  | httpResponse (status : Int) (body : String)
  deriving DecidableEq

/-- True unless building the PUT request itself failed. -/
def CreateOutcome.requestBuilt : CreateOutcome → Bool
  | .createRequestError _ => false
  | _ => true

/-- The world a single Present or CleanUp invocation runs against: the
process-wide ApiKey and the outcome of each HTTP call the run may issue.
deleteTransportError is the error returned by httpClient.Do for the DELETE
(none meaning the call went through; its response is never inspected). -/
structure ProviderEnv where
  apiKey : String
  zoneFetch : ZoneFetchOutcome
  createResult : CreateOutcome
  deleteTransportError : Option String
  deriving DecidableEq

/-- strings.TrimSuffix from the Go standard library: when suffix is a
(byte, equivalently character) suffix of s, s without that suffix,
otherwise s unchanged. -/
def trimSuffix (s suffix : String) : String :=
  if suffix.data.isSuffixOf s.data then
    String.mk (s.data.take (s.data.length - suffix.data.length))
  else s

/-- The relative hostname computed by Present and CleanUp:
strings.TrimSuffix(strings.TrimSuffix(fqdn, zone), "."). -/
def relativeHostname (fqdn zone : String) : String :=
  trimSuffix (trimSuffix fqdn zone) (".")

/-- The search-term computation at the head of GetZone: when the last byte
of zone is a dot, zone without that byte.  Go indexes zone[len(zone)-1], so
the empty zone is an index-out-of-range panic, modelled as none. -/
def trimZoneDot (zone : String) : Option String :=
  match zone.data.getLast? with
  | none => none
  | some c => some (if c = '.' then String.mk zone.data.dropLast else zone)

/-- Error message of GetZone when the search result has no items. -/
def zoneNotFound (zone : String) : String := "no DNS zone found for " ++ zone

/-- GetZone from src/unnamed/part_000: trim the trailing dot from the zone
name, issue the search GET, wrap any step failure with its operation
context, fail when the result set is empty, and otherwise return the
decoded response.  The second component is the list of HTTP calls issued. -/
def GetZone (zone : String) (out : ZoneFetchOutcome) :
    GoResult ZoneResponse × List ApiCall :=
  match trimZoneDot zone with
  | none => (.panicked ("runtime error: index out of range"), [])
  | some searchTerm =>
    match out with
    | .createRequestError e => (.err ("failed to create request: " ++ e), [])
    | .transportError e =>
        (.err ("failed to execute request: " ++ e), [.searchZone searchTerm])
    | .readError e =>
        (.err ("failed to read response body: " ++ e), [.searchZone searchTerm])
    | .decodeError e =>
        (.err ("failed to unmarshal response: " ++ e), [.searchZone searchTerm])
    | .ok data =>
        if data.Items.length = 0 then
          (.err (zoneNotFound searchTerm), [.searchZone searchTerm])
        else
          (.ok data, [.searchZone searchTerm])

/-- GetZoneID from the source: GetZone, then the ID of Items[0] (Go slice
indexing panics when Items is empty, which GetZone's emptiness check makes
unreachable on the ok path). -/
def GetZoneID (zone : String) (out : ZoneFetchOutcome) :
    GoResult Int × List ApiCall :=
  match GetZone zone out with
  | (.ok data, calls) =>
    match data.Items with
    | [] => (.panicked ("runtime error: index out of range"), calls)
    | item :: _ => (.ok item.ID, calls)
  | (.err m, calls) => (.err m, calls)
  | (.panicked m, calls) => (.panicked m, calls)

/-- loadConfig from the source: panics when the process ApiKey is empty and
otherwise returns the config holding the key (it never returns an error). -/
def loadConfig (apiKey : String) : GoResult String :=
  if apiKey = "" then .panicked errMissingAPIKey else .ok apiKey

/-- The Record literal Present builds: Type=recordType, Ttl=recordTTL,
Value=key, Name=hostname, Disabled=false; ID is left at the Go zero value. -/
def presentRecord (key hostname : String) : Record :=
  { ID := 0, «Type» := recordType, Ttl := recordTTL, Value := key,
    Name := hostname, Disabled := false }

/-- Field names present in the output of json.Marshal for a Record value.
Every field of the Record struct carries an omitempty tag, so a field is
serialized exactly when its value is not the Go zero value of its type. -/
def Record.jsonFields (r : Record) : List String :=
  (if r.ID = 0 then [] else ["Id"]) ++
  (if r.«Type» = 0 then [] else ["Type"]) ++
  (if r.Ttl = 0 then [] else ["Ttl"]) ++
  (if r.Value = "" then [] else ["Value"]) ++
  (if r.Name = "" then [] else ["Name"]) ++
  (if r.Disabled = false then [] else ["Disabled"])

/-- Present from src/unnamed/part_000.  A nil request is rejected up front;
then loadConfig, GetZoneID on the resolved zone, the relative-hostname
computation, and the record-creation PUT, each failure wrapped with its
operation context and a status of 400 or above turned into an error. -/
def Present (ch : Option ChallengeRequest) (env : ProviderEnv) :
    GoResult Unit × List ApiCall :=
  match ch with
  | none => (.err ("challenge request cannot be nil"), [])
  | some ch =>
    match loadConfig env.apiKey with
    | .panicked m => (.panicked m, [])
    | .err m => (.err ("failed to load config: " ++ m), [])
    | .ok _ =>
      match GetZoneID ch.ResolvedZone env.zoneFetch with
      | (.panicked m, calls) => (.panicked m, calls)
      | (.err m, calls) => (.err ("failed to get zone ID: " ++ m), calls)
      | (.ok zoneID, calls) =>
        let hostname := relativeHostname ch.ResolvedFQDN ch.ResolvedZone
        let record := presentRecord ch.Key hostname
        match env.createResult with
        | .createRequestError e => (.err ("failed to create request: " ++ e), calls)
        | .transportError e =>
            (.err ("failed to send request: " ++ e),
             calls ++ [.createRecord zoneID record])
        | .readError e =>
            (.err ("failed to read response: " ++ e),
             calls ++ [.createRecord zoneID record])
        | .httpResponse status body =>
            if 400 ≤ status then
              (.err ("API request failed with status " ++ toString status ++ ": " ++ body),
               calls ++ [.createRecord zoneID record])
            else
              (.ok (), calls ++ [.createRecord zoneID record])

/-- The loop condition of CleanUp: record.Type == 3 && record.Name ==
hostname && record.Value == ch.Key. -/
def recordMatches (hostname key : String) (r : Record) : Bool :=
  r.«Type» == 3 && r.Name == hostname && r.Value == key

/-- CleanUp's scan of the zone's record list: recordID starts at 0 and the
loop sets it to the ID of the first matching record and breaks. -/
def findMatchingRecordID (records : List Record) (hostname key : String) : Int :=
  match records.find? (recordMatches hostname key) with
  | some r => r.ID
  | none => 0

/-- CleanUp from src/unnamed/part_000: loadConfig, GetZone on the resolved
zone, the scan of Items[0].Records for the first record matching
(Type, Name, Value), the designed no-op when recordID stays 0, and
otherwise the DELETE of that record. -/
def CleanUp (ch : ChallengeRequest) (env : ProviderEnv) :
    GoResult Unit × List ApiCall :=
  match loadConfig env.apiKey with
  | .panicked m => (.panicked m, [])
  | .err m => (.err m, [])
  | .ok _ =>
    match GetZone ch.ResolvedZone env.zoneFetch with
    | (.panicked m, calls) => (.panicked m, calls)
    | (.err m, calls) => (.err ("failed to get zone ID: " ++ m), calls)
    | (.ok data, calls) =>
      match data.Items with
      | [] => (.panicked ("runtime error: index out of range"), calls)
      | item :: _ =>
        let hostname := relativeHostname ch.ResolvedFQDN ch.ResolvedZone
        let recordID := findMatchingRecordID item.Records hostname ch.Key
        if recordID = 0 then (.ok (), calls)
        else
          match env.deleteTransportError with
          | some e => (.err e, calls ++ [.deleteRecord item.ID recordID])
          | none => (.ok (), calls ++ [.deleteRecord item.ID recordID])


/-! ### Helper lemmas about the shapes of call traces -/

/-- GetZone issues either no call at all or exactly the one search GET with
the trimmed search term. -/
theorem getZone_calls_shape (z : String) (out : ZoneFetchOutcome) :
    (GetZone z out).2 = [] ∨
      ∃ t, trimZoneDot z = some t ∧ (GetZone z out).2 = [ApiCall.searchZone t] := by
  rcases ht : trimZoneDot z with _ | t
  · left; simp [GetZone, ht]
  · cases out with
    | createRequestError e => left; simp [GetZone, ht]
    | transportError e => exact Or.inr ⟨t, rfl, by simp [GetZone, ht]⟩
    | readError e => exact Or.inr ⟨t, rfl, by simp [GetZone, ht]⟩
    | decodeError e => exact Or.inr ⟨t, rfl, by simp [GetZone, ht]⟩
    | ok data =>
      refine Or.inr ⟨t, rfl, ?_⟩
      by_cases hd : data.Items.length = 0 <;> simp [GetZone, ht, hd]

/-- Every call GetZone issues is the read-only zone search. -/
theorem getZone_calls_not_mutating (z : String) (out : ZoneFetchOutcome) :
    ∀ c ∈ (GetZone z out).2, c.isMutating = false := by
  intro c hc
  rcases getZone_calls_shape z out with h | ⟨t, _, h⟩ <;> rw [h] at hc
  · exact absurd hc (List.not_mem_nil c)
  · have he := List.mem_singleton.mp hc
    subst he; rfl

/-- A non-mutating call is not a delete. -/
theorem isDelete_false_of_not_mutating (c : ApiCall) (h : c.isMutating = false) :
    c.isDelete = false := by
  cases c <;> simp_all [ApiCall.isMutating, ApiCall.isDelete]

/-- Successful zone fetch: GetZone returns the data and the single search
call when the decoded response has at least one item. -/
theorem getZone_ok_eq (z t : String) (data : ZoneResponse)
    (ht : trimZoneDot z = some t) (hne : data.Items ≠ []) :
    GetZone z (.ok data) = (.ok data, [ApiCall.searchZone t]) := by
  have hd : ¬ data.Items.length = 0 := by simpa [List.length_eq_zero] using hne
  simp [GetZone, ht, hd]

/-- Empty result set: GetZone fails with the zone-not-found error after the
single search call. -/
theorem getZone_empty_eq (z t : String) (data : ZoneResponse)
    (ht : trimZoneDot z = some t) (hempty : data.Items = []) :
    GetZone z (.ok data) = (.err (zoneNotFound t), [ApiCall.searchZone t]) := by
  simp [GetZone, ht, hempty]

/-- Inversion: GetZone only returns ok when the environment delivered that
decoded response and it had at least one item. -/
theorem getZone_fst_ok (z : String) (out : ZoneFetchOutcome) (data : ZoneResponse)
    (h : (GetZone z out).1 = .ok data) :
    out = .ok data ∧ data.Items ≠ [] ∧
      ∃ t, trimZoneDot z = some t ∧ (GetZone z out).2 = [ApiCall.searchZone t] := by
  rcases ht : trimZoneDot z with _ | t
  · exfalso; simp [GetZone, ht] at h
  · cases out with
    | createRequestError e => exfalso; simp [GetZone, ht] at h
    | transportError e => exfalso; simp [GetZone, ht] at h
    | readError e => exfalso; simp [GetZone, ht] at h
    | decodeError e => exfalso; simp [GetZone, ht] at h
    | ok d =>
      by_cases hd : d.Items.length = 0
      · exfalso; simp [GetZone, ht, hd] at h
      · have hde : d = data := by simpa [GetZone, ht, hd] using h
        subst hde
        exact ⟨rfl, by simpa [List.length_eq_zero] using hd, t, rfl, by simp [GetZone, ht, hd]⟩

/-- GetZoneID issues exactly the calls GetZone issues. -/
theorem getZoneID_snd (z : String) (out : ZoneFetchOutcome) :
    (GetZoneID z out).2 = (GetZone z out).2 := by
  rcases h : GetZone z out with ⟨res, calls⟩
  cases res with
  | ok data =>
    rcases hitems : data.Items with _ | ⟨it, rest⟩ <;> simp [GetZoneID, h, hitems]
  | err m => simp [GetZoneID, h]
  | panicked m => simp [GetZoneID, h]

/-! ### Concrete fixtures used by witnesses and counterexamples -/

/-- The Scenario A challenge request of the spec. -/
def scenarioARequest : ChallengeRequest :=
  { ResolvedFQDN := "_acme-challenge.example.com.", ResolvedZone := "example.com.",
    Key := "tok1" }

/-- A TXT record at _acme-challenge holding tok1. -/
def recA : Record :=
  { ID := 42, «Type» := 3, Ttl := 300, Value := "tok1", Name := "_acme-challenge",
    Disabled := false }

/-- A TXT record at the same name holding a different challenge's tok2. -/
def recB : Record :=
  { ID := 43, «Type» := 3, Ttl := 300, Value := "tok2", Name := "_acme-challenge",
    Disabled := false }

/-- The example.com zone item holding both records. -/
def itemA : Item := { ID := 7, Domain := "example.com", Records := [recA, recB] }

/-- A zone search response returning that single zone. -/
def dataA : ZoneResponse :=
  { Items := [itemA], CurrentPage := 1, TotalItems := 1, HasMoreItems := false }

/-- An environment in which every HTTP call succeeds against dataA. -/
def envA : ProviderEnv :=
  { apiKey := "k", zoneFetch := .ok dataA, createResult := .httpResponse 200 (""),
    deleteTransportError := none }

/-! ### Claim theorems -/

/-- Claim C9: Present called with a nil challenge request returns the
invalid-input error, issuing no call, rather than proceeding or crashing. -/
theorem present_nil_request (env : ProviderEnv) :
    Present none env = (.err ("challenge request cannot be nil"), []) := rfl

/-- Claim C5 counterexample: for fqdn "a.b." and zone "zz", the zone is not
a suffix of the fqdn, yet the computed hostname is "a.b", not the
unstripped input "a.b.": the trailing-dot trim still applies. -/
theorem relative_hostname_counterexample :
    ("zz").data.isSuffixOf ("a.b.").data = false ∧
    relativeHostname ("a.b.") ("zz") = "a.b" ∧ ("a.b" : String) ≠ "a.b." := by
  exact ⟨by decide, by decide, by decide⟩

/-- Claim C5 (amended): the relative hostname is computed by removing the
exact string suffix zone from fqdn and then one trailing dot; when zone is
not a suffix of fqdn the zone-removal step returns fqdn unchanged, and the
result is fqdn with one trailing dot removed if present — not always the
unstripped fqdn itself. -/
theorem relative_hostname_fallback (fqdn zone : String)
    (h : zone.data.isSuffixOf fqdn.data = false) :
    relativeHostname fqdn zone = trimSuffix (trimSuffix fqdn zone) (".") ∧
    trimSuffix fqdn zone = fqdn ∧
    relativeHostname fqdn zone = trimSuffix fqdn (".") := by
  have h2 : trimSuffix fqdn zone = fqdn := by simp [trimSuffix, h]
  exact ⟨rfl, h2, by rw [relativeHostname, h2]⟩

/-- Witness for the amended C5 at fqdn "a.b.", zone "zz". -/
theorem relative_hostname_fallback_applied :
    relativeHostname ("a.b.") ("zz") = trimSuffix (trimSuffix ("a.b.") ("zz")) (".") ∧
    trimSuffix ("a.b.") ("zz") = "a.b." ∧
    relativeHostname ("a.b.") ("zz") = trimSuffix ("a.b.") (".") :=
  relative_hostname_fallback ("a.b.") ("zz") (by decide)

/-- Claim C6 counterexample: the empty zone name does not end in a dot, yet
it is not used unchanged as a search term: GetZone indexes the last byte of
the empty string, panicking before issuing any query. -/
theorem get_zone_empty_zone_counterexample :
    trimZoneDot ("") = none ∧
    GetZone ("")
        (.ok { Items := [], CurrentPage := 0, TotalItems := 0, HasMoreItems := false })
      = (.panicked ("runtime error: index out of range"), []) := by
  exact ⟨rfl, rfl⟩

/-- Claim C6 (amended): for every nonempty zone name whose request is
built, the single search query uses the zone name with exactly one trailing
dot removed when its last character is a dot, and the zone name unchanged
otherwise; the empty zone name panics before any query is issued. -/
theorem get_zone_search_term_trimmed (z : String) (out : ZoneFetchOutcome) (c : Char)
    (hlast : z.data.getLast? = some c) (hbuilt : out.requestBuilt = true) :
    (GetZone z out).2 =
      [ApiCall.searchZone (if c = '.' then String.mk z.data.dropLast else z)] := by
  have ht : trimZoneDot z = some (if c = '.' then String.mk z.data.dropLast else z) := by
    simp [trimZoneDot, hlast]
  cases out with
  | createRequestError e => simp [ZoneFetchOutcome.requestBuilt] at hbuilt
  | transportError e => simp [GetZone, ht]
  | readError e => simp [GetZone, ht]
  | decodeError e => simp [GetZone, ht]
  | ok data => by_cases hd : data.Items.length = 0 <;> simp [GetZone, ht, hd]

/-- Witness for the amended C6 at the dotted zone name example.com. . -/
theorem get_zone_search_term_trimmed_applied :
    (GetZone ("example.com.") (.transportError ("boom"))).2 =
      [ApiCall.searchZone
        (if '.' = '.' then String.mk ("example.com.").data.dropLast else "example.com.")] :=
  get_zone_search_term_trimmed ("example.com.") (.transportError ("boom")) '.'
    (by decide) (by decide)

/-- Claim C4 counterexample: the record Present submits for Scenario A is
serialized without the Disabled field: every field of the Record struct is
tagged omitempty and Present always sets Disabled to false, the zero value. -/
theorem present_body_counterexample :
    ApiCall.createRecord itemA.ID (presentRecord ("tok1") ("_acme-challenge"))
      ∈ (Present (some scenarioARequest) envA).2 ∧
    (presentRecord ("tok1") ("_acme-challenge")).jsonFields = ["Type", "Ttl", "Value", "Name"] ∧
    ("Disabled") ∉ (presentRecord ("tok1") ("_acme-challenge")).jsonFields := by
  exact ⟨by decide, by decide, by decide⟩

/-- A create call never occurs in a search-only trace. -/
theorem createRecord_not_mem_of_search_only (zid : Int) (r : Record)
    (calls : List ApiCall) (hnm : ∀ x ∈ calls, x.isMutating = false) :
    ApiCall.createRecord zid r ∉ calls := by
  intro hm
  have := hnm _ hm
  simp [ApiCall.isMutating] at this

/-- A delete call never occurs in a search-only trace. -/
theorem deleteRecord_not_mem_of_search_only (zid rid : Int)
    (calls : List ApiCall) (hnm : ∀ x ∈ calls, x.isMutating = false) :
    ApiCall.deleteRecord zid rid ∉ calls := by
  intro hm
  have := hnm _ hm
  simp [ApiCall.isMutating] at this

/-- Every call GetZoneID issues is the read-only zone search. -/
theorem getZoneID_calls_not_mutating (z : String) (out : ZoneFetchOutcome) :
    ∀ c ∈ (GetZoneID z out).2, c.isMutating = false := by
  rw [getZoneID_snd]
  exact getZone_calls_not_mutating z out

/-- Any record body Present submits is exactly the record literal it builds
from the request key and the computed relative hostname. -/
theorem present_create_body (ch : ChallengeRequest) (env : ProviderEnv)
    (zid : Int) (r : Record)
    (hmem : ApiCall.createRecord zid r ∈ (Present (some ch) env).2) :
    r = presentRecord ch.Key (relativeHostname ch.ResolvedFQDN ch.ResolvedZone) := by
  by_cases hkey : env.apiKey = ""
  · simp [Present, loadConfig, hkey] at hmem
  · have hlc : loadConfig env.apiKey = .ok env.apiKey := by simp [loadConfig, hkey]
    rcases hgid : GetZoneID ch.ResolvedZone env.zoneFetch with ⟨res, calls⟩
    have hnm : ∀ c ∈ calls, c.isMutating = false := by
      have := getZoneID_calls_not_mutating ch.ResolvedZone env.zoneFetch
      rw [hgid] at this
      exact this
    cases res with
    | panicked m =>
      have h : (Present (some ch) env).2 = calls := by simp [Present, hlc, hgid]
      rw [h] at hmem
      exact absurd hmem (createRecord_not_mem_of_search_only zid r calls hnm)
    | err m =>
      have h : (Present (some ch) env).2 = calls := by simp [Present, hlc, hgid]
      rw [h] at hmem
      exact absurd hmem (createRecord_not_mem_of_search_only zid r calls hnm)
    | ok zoneID =>
      cases hc : env.createResult with
      | createRequestError e =>
        have h : (Present (some ch) env).2 = calls := by simp [Present, hlc, hgid, hc]
        rw [h] at hmem
        exact absurd hmem (createRecord_not_mem_of_search_only zid r calls hnm)
      | transportError e =>
        have h : (Present (some ch) env).2 = calls ++
            [ApiCall.createRecord zoneID
              (presentRecord ch.Key (relativeHostname ch.ResolvedFQDN ch.ResolvedZone))] := by
          simp [Present, hlc, hgid, hc]
        rw [h] at hmem
        rcases List.mem_append.mp hmem with hm | hm
        · exact absurd hm (createRecord_not_mem_of_search_only zid r calls hnm)
        · have he := List.mem_singleton.mp hm
          injection he with h1 h2
      | readError e =>
        have h : (Present (some ch) env).2 = calls ++
            [ApiCall.createRecord zoneID
              (presentRecord ch.Key (relativeHostname ch.ResolvedFQDN ch.ResolvedZone))] := by
          simp [Present, hlc, hgid, hc]
        rw [h] at hmem
        rcases List.mem_append.mp hmem with hm | hm
        · exact absurd hm (createRecord_not_mem_of_search_only zid r calls hnm)
        · have he := List.mem_singleton.mp hm
          injection he with h1 h2
      | httpResponse status body =>
        have h : (Present (some ch) env).2 = calls ++
            [ApiCall.createRecord zoneID
              (presentRecord ch.Key (relativeHostname ch.ResolvedFQDN ch.ResolvedZone))] := by
          by_cases hs : 400 ≤ status <;> simp [Present, hlc, hgid, hc, hs]
        rw [h] at hmem
        rcases List.mem_append.mp hmem with hm | hm
        · exact absurd hm (createRecord_not_mem_of_search_only zid r calls hnm)
        · have he := List.mem_singleton.mp hm
          injection he with h1 h2

/-- Claim C4 (amended): the JSON body of every create request Present
issues contains the fields Type and Ttl always, Value exactly when the
request key is nonempty, Name exactly when the computed hostname is
nonempty, and never the Id or Disabled fields: all six struct fields are
tagged omitempty and Present leaves ID at 0 and Disabled at false. -/
theorem present_body_fields (ch : ChallengeRequest) (env : ProviderEnv)
    (zid : Int) (r : Record)
    (hmem : ApiCall.createRecord zid r ∈ (Present (some ch) env).2) :
    ("Id") ∉ r.jsonFields ∧ ("Disabled") ∉ r.jsonFields ∧
    ("Type") ∈ r.jsonFields ∧ ("Ttl") ∈ r.jsonFields ∧
    (("Value") ∈ r.jsonFields ↔ ch.Key ≠ "") ∧
    (("Name") ∈ r.jsonFields ↔ relativeHostname ch.ResolvedFQDN ch.ResolvedZone ≠ "") := by
  have hr := present_create_body ch env zid r hmem
  subst hr
  by_cases hk : ch.Key = "" <;>
    by_cases hh : relativeHostname ch.ResolvedFQDN ch.ResolvedZone = "" <;>
      simp [presentRecord, Record.jsonFields, recordType, recordTTL, hk, hh]

/-- Witness for the amended C4 at the Scenario A create call. -/
theorem present_body_fields_applied :
    ("Id") ∉ (presentRecord ("tok1") ("_acme-challenge")).jsonFields ∧
    ("Disabled") ∉ (presentRecord ("tok1") ("_acme-challenge")).jsonFields ∧
    ("Type") ∈ (presentRecord ("tok1") ("_acme-challenge")).jsonFields ∧
    ("Ttl") ∈ (presentRecord ("tok1") ("_acme-challenge")).jsonFields ∧
    (("Value") ∈ (presentRecord ("tok1") ("_acme-challenge")).jsonFields ↔
      scenarioARequest.Key ≠ "") ∧
    (("Name") ∈ (presentRecord ("tok1") ("_acme-challenge")).jsonFields ↔
      relativeHostname scenarioARequest.ResolvedFQDN scenarioARequest.ResolvedZone ≠ "") :=
  present_body_fields scenarioARequest envA itemA.ID
    (presentRecord ("tok1") ("_acme-challenge")) (by decide)

/-- On a successful zone fetch with a built PUT request, Present issues
exactly the search GET followed by the create PUT of its record literal. -/
theorem present_ok_calls (ch : ChallengeRequest) (env : ProviderEnv)
    (data : ZoneResponse) (item : Item) (rest : List Item) (t : String)
    (hkey : env.apiKey ≠ "") (ht : trimZoneDot ch.ResolvedZone = some t)
    (hfetch : env.zoneFetch = .ok data) (hitems : data.Items = item :: rest)
    (hbuilt : env.createResult.requestBuilt = true) :
    (Present (some ch) env).2 =
      [ApiCall.searchZone t,
       ApiCall.createRecord item.ID
         (presentRecord ch.Key (relativeHostname ch.ResolvedFQDN ch.ResolvedZone))] := by
  have hne : data.Items ≠ [] := by simp [hitems]
  have hgz : GetZone ch.ResolvedZone env.zoneFetch = (.ok data, [ApiCall.searchZone t]) := by
    rw [hfetch]; exact getZone_ok_eq _ _ _ ht hne
  have hgid : GetZoneID ch.ResolvedZone env.zoneFetch
      = (.ok item.ID, [ApiCall.searchZone t]) := by
    simp [GetZoneID, hgz, hitems]
  have hlc : loadConfig env.apiKey = .ok env.apiKey := by simp [loadConfig, hkey]
  cases hc : env.createResult with
  | createRequestError e => simp [CreateOutcome.requestBuilt, hc] at hbuilt
  | transportError e => simp [Present, hlc, hgid, hc]
  | readError e => simp [Present, hlc, hgid, hc]
  | httpResponse status body =>
    by_cases hs : 400 ≤ status <;> simp [Present, hlc, hgid, hc, hs]

/-- Claim C2: for the Scenario A request, Present computes the relative
hostname _acme-challenge and submits a record with exactly Type=3, Ttl=10,
Value=tok1, Name=_acme-challenge, Disabled=false (ID left at the zero
value). -/
theorem present_scenario_a (env : ProviderEnv) (data : ZoneResponse) (item : Item)
    (rest : List Item) (hkey : env.apiKey ≠ "") (hfetch : env.zoneFetch = .ok data)
    (hitems : data.Items = item :: rest) (hbuilt : env.createResult.requestBuilt = true) :
    relativeHostname scenarioARequest.ResolvedFQDN scenarioARequest.ResolvedZone
      = "_acme-challenge" ∧
    (Present (some scenarioARequest) env).2 =
      [ApiCall.searchZone ("example.com"),
       ApiCall.createRecord item.ID
         { ID := 0, «Type» := 3, Ttl := 10, Value := "tok1",
           Name := "_acme-challenge", Disabled := false }] := by
  have hhost : relativeHostname scenarioARequest.ResolvedFQDN scenarioARequest.ResolvedZone
      = "_acme-challenge" := by decide
  refine ⟨hhost, ?_⟩
  have ht : trimZoneDot scenarioARequest.ResolvedZone = some ("example.com") := by decide
  have hcalls := present_ok_calls scenarioARequest env data item rest ("example.com")
    hkey ht hfetch hitems hbuilt
  rw [hcalls, hhost]
  rfl

/-- Witness for C2 in the all-success environment envA. -/
theorem present_scenario_a_applied :
    relativeHostname scenarioARequest.ResolvedFQDN scenarioARequest.ResolvedZone
      = "_acme-challenge" ∧
    (Present (some scenarioARequest) envA).2 =
      [ApiCall.searchZone ("example.com"),
       ApiCall.createRecord itemA.ID
         { ID := 0, «Type» := 3, Ttl := 10, Value := "tok1",
           Name := "_acme-challenge", Disabled := false }] :=
  present_scenario_a envA dataA itemA [] (by decide) rfl rfl rfl

/-- A zone search response with no items. -/
def dataEmpty : ZoneResponse :=
  { Items := [], CurrentPage := 1, TotalItems := 0, HasMoreItems := false }

/-- An environment whose zone search finds nothing. -/
def envEmpty : ProviderEnv :=
  { apiKey := "k", zoneFetch := .ok dataEmpty, createResult := .httpResponse 200 (""),
    deleteTransportError := none }

/-- Claim C3: when the zone search returns zero items, Present and CleanUp
return the zone-not-found error wrapped with the get-zone-ID context, and
neither issues any mutating call. -/
theorem zone_search_empty_no_mutation (ch : ChallengeRequest) (env : ProviderEnv)
    (data : ZoneResponse) (t : String) (hkey : env.apiKey ≠ "")
    (ht : trimZoneDot ch.ResolvedZone = some t) (hfetch : env.zoneFetch = .ok data)
    (hempty : data.Items = []) :
    Present (some ch) env
      = (.err ("failed to get zone ID: " ++ zoneNotFound t), [ApiCall.searchZone t]) ∧
    CleanUp ch env
      = (.err ("failed to get zone ID: " ++ zoneNotFound t), [ApiCall.searchZone t]) ∧
    (Present (some ch) env).2.filter ApiCall.isMutating = [] ∧
    (CleanUp ch env).2.filter ApiCall.isMutating = [] := by
  have hgz : GetZone ch.ResolvedZone env.zoneFetch
      = (.err (zoneNotFound t), [ApiCall.searchZone t]) := by
    rw [hfetch]; exact getZone_empty_eq _ _ _ ht hempty
  have hlc : loadConfig env.apiKey = .ok env.apiKey := by simp [loadConfig, hkey]
  have hp : Present (some ch) env
      = (.err ("failed to get zone ID: " ++ zoneNotFound t), [ApiCall.searchZone t]) := by
    simp [Present, GetZoneID, hlc, hgz]
  have hcu : CleanUp ch env
      = (.err ("failed to get zone ID: " ++ zoneNotFound t), [ApiCall.searchZone t]) := by
    simp [CleanUp, hlc, hgz]
  exact ⟨hp, hcu, by simp [hp, ApiCall.isMutating], by simp [hcu, ApiCall.isMutating]⟩

/-- Witness for C3: the Scenario A request against an empty search result. -/
theorem zone_search_empty_no_mutation_applied :
    Present (some scenarioARequest) envEmpty
      = (.err ("failed to get zone ID: " ++ zoneNotFound ("example.com")),
         [ApiCall.searchZone ("example.com")]) ∧
    CleanUp scenarioARequest envEmpty
      = (.err ("failed to get zone ID: " ++ zoneNotFound ("example.com")),
         [ApiCall.searchZone ("example.com")]) ∧
    (Present (some scenarioARequest) envEmpty).2.filter ApiCall.isMutating = [] ∧
    (CleanUp scenarioARequest envEmpty).2.filter ApiCall.isMutating = [] :=
  zone_search_empty_no_mutation scenarioARequest envEmpty dataEmpty ("example.com")
    (by decide) (by decide) rfl rfl

/-- An environment whose zone-search GET fails at the transport step. -/
def envSendFail : ProviderEnv :=
  { apiKey := "k", zoneFetch := .transportError ("boom"),
    createResult := .httpResponse 200 (""), deleteTransportError := none }

/-- Claim C7: each fallible step of the zone-fetch path — building the
request, sending it, reading the response body, decoding the JSON — turns
into an error wrapped with that operation's context, and a zone-fetch error
is wrapped again with the get-zone-ID context and returned to the caller by
both Present and CleanUp. -/
theorem zone_fetch_errors_wrapped (z e m : String) (c : Char) (ch : ChallengeRequest)
    (env : ProviderEnv) (hlast : z.data.getLast? = some c) (hkey : env.apiKey ≠ "")
    (hperr : (GetZone ch.ResolvedZone env.zoneFetch).1 = .err m) :
    (GetZone z (.transportError e)).1 = .err ("failed to execute request: " ++ e) ∧
    (GetZone z (.readError e)).1 = .err ("failed to read response body: " ++ e) ∧
    (GetZone z (.decodeError e)).1 = .err ("failed to unmarshal response: " ++ e) ∧
    (GetZone z (.createRequestError e)).1 = .err ("failed to create request: " ++ e) ∧
    (Present (some ch) env).1 = .err ("failed to get zone ID: " ++ m) ∧
    (CleanUp ch env).1 = .err ("failed to get zone ID: " ++ m) := by
  have ht : trimZoneDot z = some (if c = '.' then String.mk z.data.dropLast else z) := by
    simp [trimZoneDot, hlast]
  have hlc : loadConfig env.apiKey = .ok env.apiKey := by simp [loadConfig, hkey]
  rcases hgz : GetZone ch.ResolvedZone env.zoneFetch with ⟨res, calls⟩
  rw [hgz] at hperr
  have hres : res = .err m := by simpa using hperr
  subst hres
  refine ⟨by simp [GetZone, ht], by simp [GetZone, ht], by simp [GetZone, ht],
    by simp [GetZone, ht], ?_, ?_⟩
  · simp [Present, GetZoneID, hlc, hgz]
  · simp [CleanUp, hlc, hgz]

/-- Witness for C7: a transport failure of the zone search propagates
through Present and CleanUp. -/
theorem zone_fetch_errors_wrapped_applied :
    (GetZone ("example.com.") (.transportError ("boom"))).1
      = .err ("failed to execute request: " ++ "boom") ∧
    (GetZone ("example.com.") (.readError ("boom"))).1
      = .err ("failed to read response body: " ++ "boom") ∧
    (GetZone ("example.com.") (.decodeError ("boom"))).1
      = .err ("failed to unmarshal response: " ++ "boom") ∧
    (GetZone ("example.com.") (.createRequestError ("boom"))).1
      = .err ("failed to create request: " ++ "boom") ∧
    (Present (some scenarioARequest) envSendFail).1
      = .err ("failed to get zone ID: " ++ "failed to execute request: boom") ∧
    (CleanUp scenarioARequest envSendFail).1
      = .err ("failed to get zone ID: " ++ "failed to execute request: boom") :=
  zone_fetch_errors_wrapped ("example.com.") ("boom")
    ("failed to execute request: boom") '.' scenarioARequest envSendFail
    (by decide) (by decide) (by decide)

/-- A Scenario A style request whose key matches no record of itemA. -/
def noMatchRequest : ChallengeRequest :=
  { ResolvedFQDN := "_acme-challenge.example.com.", ResolvedZone := "example.com.",
    Key := "tokX" }

/-- Claim C8: when the zone's record list has no record matching (Type 3,
computed hostname, request key), CleanUp returns success having issued
nothing beyond the read-only search: a mutation-free no-op, so invoking it
again in this state returns the same success. -/
theorem cleanup_no_match_is_noop (ch : ChallengeRequest) (env : ProviderEnv)
    (data : ZoneResponse) (item : Item) (rest : List Item) (t : String)
    (hkey : env.apiKey ≠ "") (ht : trimZoneDot ch.ResolvedZone = some t)
    (hfetch : env.zoneFetch = .ok data) (hitems : data.Items = item :: rest)
    (hno : item.Records.find?
        (recordMatches (relativeHostname ch.ResolvedFQDN ch.ResolvedZone) ch.Key)
      = none) :
    CleanUp ch env = (.ok (), [ApiCall.searchZone t]) ∧
    (CleanUp ch env).2.filter ApiCall.isMutating = [] := by
  have hne : data.Items ≠ [] := by simp [hitems]
  have hgz : GetZone ch.ResolvedZone env.zoneFetch = (.ok data, [ApiCall.searchZone t]) := by
    rw [hfetch]; exact getZone_ok_eq _ _ _ ht hne
  have hlc : loadConfig env.apiKey = .ok env.apiKey := by simp [loadConfig, hkey]
  have h0 : findMatchingRecordID item.Records
      (relativeHostname ch.ResolvedFQDN ch.ResolvedZone) ch.Key = 0 := by
    simp [findMatchingRecordID, hno]
  have hcu : CleanUp ch env = (.ok (), [ApiCall.searchZone t]) := by
    simp [CleanUp, hlc, hgz, hitems, h0]
  exact ⟨hcu, by simp [hcu, ApiCall.isMutating]⟩

/-- Witness for C8: key tokX matches neither record of itemA. -/
theorem cleanup_no_match_is_noop_applied :
    CleanUp noMatchRequest envA = (.ok (), [ApiCall.searchZone ("example.com")]) ∧
    (CleanUp noMatchRequest envA).2.filter ApiCall.isMutating = [] :=
  cleanup_no_match_is_noop noMatchRequest envA dataA itemA [] ("example.com")
    (by decide) (by decide) rfl rfl (by decide)

/-- A matching record whose provider-assigned ID is 0. -/
def recZero : Record :=
  { ID := 0, «Type» := 3, Ttl := 120, Value := "tok9", Name := "_acme-challenge",
    Disabled := false }

/-- A zone item holding only the ID-0 record. -/
def itemZero : Item := { ID := 7, Domain := "example.com", Records := [recZero] }

/-- A zone search response returning that zone. -/
def dataZero : ZoneResponse :=
  { Items := [itemZero], CurrentPage := 1, TotalItems := 1, HasMoreItems := false }

/-- An all-success environment over dataZero. -/
def envZero : ProviderEnv :=
  { apiKey := "k", zoneFetch := .ok dataZero, createResult := .httpResponse 200 (""),
    deleteTransportError := none }

/-- The request whose key matches recZero. -/
def zeroIDRequest : ChallengeRequest :=
  { ResolvedFQDN := "_acme-challenge.example.com.", ResolvedZone := "example.com.",
    Key := "tok9" }

/-- Claim C10: record ID 0 doubles as CleanUp's not-found sentinel: when
the first matching record carries provider ID 0, CleanUp returns success
without issuing any delete, exactly as if no record had matched. -/
theorem cleanup_zero_id_sentinel (ch : ChallengeRequest) (env : ProviderEnv)
    (data : ZoneResponse) (item : Item) (rest : List Item) (t : String) (r : Record)
    (hkey : env.apiKey ≠ "") (ht : trimZoneDot ch.ResolvedZone = some t)
    (hfetch : env.zoneFetch = .ok data) (hitems : data.Items = item :: rest)
    (hfind : item.Records.find?
        (recordMatches (relativeHostname ch.ResolvedFQDN ch.ResolvedZone) ch.Key)
      = some r)
    (hid : r.ID = 0) :
    CleanUp ch env = (.ok (), [ApiCall.searchZone t]) ∧
    (CleanUp ch env).2.filter ApiCall.isMutating = [] := by
  have hne : data.Items ≠ [] := by simp [hitems]
  have hgz : GetZone ch.ResolvedZone env.zoneFetch = (.ok data, [ApiCall.searchZone t]) := by
    rw [hfetch]; exact getZone_ok_eq _ _ _ ht hne
  have hlc : loadConfig env.apiKey = .ok env.apiKey := by simp [loadConfig, hkey]
  have h0 : findMatchingRecordID item.Records
      (relativeHostname ch.ResolvedFQDN ch.ResolvedZone) ch.Key = 0 := by
    simp [findMatchingRecordID, hfind, hid]
  have hcu : CleanUp ch env = (.ok (), [ApiCall.searchZone t]) := by
    simp [CleanUp, hlc, hgz, hitems, h0]
  exact ⟨hcu, by simp [hcu, ApiCall.isMutating]⟩

/-- Witness for C10: the sole matching record of itemZero has ID 0 and no
delete is issued. -/
theorem cleanup_zero_id_sentinel_applied :
    CleanUp zeroIDRequest envZero = (.ok (), [ApiCall.searchZone ("example.com")]) ∧
    (CleanUp zeroIDRequest envZero).2.filter ApiCall.isMutating = [] :=
  cleanup_zero_id_sentinel zeroIDRequest envZero dataZero itemZero [] ("example.com")
    recZero (by decide) (by decide) rfl rfl (by decide) rfl

/-- Claim C1: for every challenge request and environment, CleanUp issues
at most one delete, and any delete it issues targets the ID of the first
record in provider-returned order matching Type 3, the computed relative
hostname and the request key — in particular always a record whose Value
equals the request's Key, never one whose Value differs. -/
theorem cleanup_deletes_only_first_match (ch : ChallengeRequest) (env : ProviderEnv) :
    ((CleanUp ch env).2.filter ApiCall.isDelete).length ≤ 1 ∧
    ∀ zid rid, ApiCall.deleteRecord zid rid ∈ (CleanUp ch env).2 →
      ∃ data item r,
        env.zoneFetch = ZoneFetchOutcome.ok data ∧
        data.Items.head? = some item ∧
        item.Records.find?
          (recordMatches (relativeHostname ch.ResolvedFQDN ch.ResolvedZone) ch.Key)
          = some r ∧
        zid = item.ID ∧ rid = r.ID ∧ r.ID ≠ 0 ∧
        r.«Type» = 3 ∧
        r.Name = relativeHostname ch.ResolvedFQDN ch.ResolvedZone ∧
        r.Value = ch.Key := by
  by_cases hkey : env.apiKey = ""
  · have h : CleanUp ch env = (.panicked errMissingAPIKey, []) := by
      simp [CleanUp, loadConfig, hkey]
    rw [h]
    exact ⟨by simp, by intro zid rid hmem; simp at hmem⟩
  · have hlc : loadConfig env.apiKey = .ok env.apiKey := by simp [loadConfig, hkey]
    rcases hgz : GetZone ch.ResolvedZone env.zoneFetch with ⟨res, calls⟩
    have hnm : ∀ c ∈ calls, c.isMutating = false := by
      have hcm := getZone_calls_not_mutating ch.ResolvedZone env.zoneFetch
      rw [hgz] at hcm
      exact hcm
    have hfil : calls.filter ApiCall.isDelete = [] := by
      rw [List.filter_eq_nil_iff]
      intro a ha
      simp [isDelete_false_of_not_mutating a (hnm a ha)]
    cases res with
    | panicked m =>
      have h : CleanUp ch env = (.panicked m, calls) := by simp [CleanUp, hlc, hgz]
      rw [h]
      refine ⟨by simp [hfil], ?_⟩
      intro zid rid hmem
      exact absurd hmem (deleteRecord_not_mem_of_search_only zid rid calls hnm)
    | err m =>
      have h : CleanUp ch env = (.err ("failed to get zone ID: " ++ m), calls) := by
        simp [CleanUp, hlc, hgz]
      rw [h]
      refine ⟨by simp [hfil], ?_⟩
      intro zid rid hmem
      exact absurd hmem (deleteRecord_not_mem_of_search_only zid rid calls hnm)
    | ok data =>
      have hfst : (GetZone ch.ResolvedZone env.zoneFetch).1 = .ok data := by rw [hgz]
      obtain ⟨hfetch, hne, t, ht, hcallseq⟩ := getZone_fst_ok _ _ _ hfst
      rcases hitems : data.Items with _ | ⟨item, rest⟩
      · exact absurd hitems hne
      · by_cases h0 : findMatchingRecordID item.Records
            (relativeHostname ch.ResolvedFQDN ch.ResolvedZone) ch.Key = 0
        · have h : CleanUp ch env = (.ok (), calls) := by
            simp [CleanUp, hlc, hgz, hitems, h0]
          rw [h]
          refine ⟨by simp [hfil], ?_⟩
          intro zid rid hmem
          exact absurd hmem (deleteRecord_not_mem_of_search_only zid rid calls hnm)
        · rcases hfind : item.Records.find?
              (recordMatches (relativeHostname ch.ResolvedFQDN ch.ResolvedZone) ch.Key)
            with _ | r
          · exact absurd (by simp [findMatchingRecordID, hfind]) h0
          · have hrid : findMatchingRecordID item.Records
                (relativeHostname ch.ResolvedFQDN ch.ResolvedZone) ch.Key = r.ID := by
              simp [findMatchingRecordID, hfind]
            have hIDne : r.ID ≠ 0 := by rw [hrid] at h0; exact h0
            have hmatch := List.find?_some hfind
            simp only [recordMatches, Bool.and_eq_true, beq_iff_eq] at hmatch
            have htr : (CleanUp ch env).2
                = calls ++ [ApiCall.deleteRecord item.ID r.ID] := by
              cases hdel : env.deleteTransportError <;>
                simp [CleanUp, hlc, hgz, hitems, hrid, hIDne, hdel]
            rw [htr]
            constructor
            · rw [List.filter_append, hfil]
              simp [ApiCall.isDelete]
            · intro zid rid hmem
              rcases List.mem_append.mp hmem with hm | hm
              · exact absurd hm (deleteRecord_not_mem_of_search_only zid rid calls hnm)
              · have he := List.mem_singleton.mp hm
                injection he with h1 h2
                exact ⟨data, item, r, hfetch, by simp [hitems], hfind, h1, h2, hIDne,
                  hmatch.1.1, hmatch.1.2, hmatch.2⟩

/-- Witness for C1: CleanUp for Scenario A against envA issues the delete
of record 42, the first (Type, Name, Value) match. -/
theorem cleanup_deletes_only_first_match_applied :
    ∃ data item r,
      envA.zoneFetch = ZoneFetchOutcome.ok data ∧
      data.Items.head? = some item ∧
      item.Records.find?
        (recordMatches
          (relativeHostname scenarioARequest.ResolvedFQDN scenarioARequest.ResolvedZone)
          scenarioARequest.Key) = some r ∧
      (7 : Int) = item.ID ∧ (42 : Int) = r.ID ∧ r.ID ≠ 0 ∧
      r.«Type» = 3 ∧
      r.Name = relativeHostname scenarioARequest.ResolvedFQDN scenarioARequest.ResolvedZone ∧
      r.Value = scenarioARequest.Key :=
  (cleanup_deletes_only_first_match scenarioARequest envA).2 7 42 (by decide)
